import Mathlib

/-!
Verification of `src/examples/c-project/main.c` (repository GhostKellz/zmake).

The C program is a straight-line `main` that prints a fixed greeting line,
a line with the argument count `argc`, one line per argument (index plus
literal text, produced by a `for` loop over `argv`), then, gated by the
compile-time preprocessor symbols `DEBUG` and `NDEBUG`, up to two extra
fixed lines, and finally returns `0`.

We embed the program shallowly: standard output is an explicit list of
lines threaded through the computation, the `for` loop becomes an
index-driven recursive function `argLoop`, the two preprocessor symbols
become the two booleans of a `BuildConfig`, and `main`'s return value is
the second component of `runMain`.
-/

/-- The two compile-time indicators of the C file: `debug` models the
preprocessor symbol `DEBUG` being defined, `ndebug` models `NDEBUG`. -/
structure BuildConfig where
  debug : Bool
  ndebug : Bool

/-- The fixed greeting printed by line 5 of `main.c`. -/
def greeting : String := "Hello from C compiled with zmake! 🔥"

/-- The line printed by `printf("Arguments: %d\n", argc)` (line 6). -/
def countLine (n : Nat) : String := "Arguments: " ++ toString n

/-- The line printed by `printf("  [%d]: %s\n", i, argv[i])` (line 9). -/
def argLine (i : Nat) (a : String) : String :=
  "  [" ++ toString i ++ "]: " ++ a

/-- The line printed under `#ifdef DEBUG` (line 13). -/
def debugLine : String := "Debug mode enabled"

/-- The line printed under `#ifdef NDEBUG` (line 17). -/
def releaseLine : String := "Release mode (optimized)"

/-- The `for (int i = 0; i < argc; i++) printf("  [%d]: %s\n", i, argv[i]);`
loop of `main.c`, lines 8-10: `argv` is the argument vector, `i` the loop
counter and `out` the lines written to standard output so far. -/
def argLoop (argv : List String) (i : Nat) (out : List String) : List String :=
  if h : i < argv.length then
    argLoop argv (i + 1) (out ++ [argLine i (argv.get ⟨i, h⟩)])
  else out
termination_by argv.length - i
decreasing_by omega

/-- The whole of `main` (lines 4-21 of `main.c`): given the build
configuration and the argument vector, returns the sequence of lines
written to standard output and the value returned to the caller. -/
def runMain (cfg : BuildConfig) (argv : List String) : List String × Int :=
  let out := [greeting]
  let out := out ++ [countLine argv.length]
  let out := argLoop argv 0 out
  let out := if cfg.debug then out ++ [debugLine] else out
  let out := if cfg.ndebug then out ++ [releaseLine] else out
  (out, 0)

/-- Closed form of the argument listing, starting the index at `i`. -/
def argLinesFrom (i : Nat) : List String → List String
  | [] => []
  | a :: rest => argLine i a :: argLinesFrom (i + 1) rest

/-- The per-argument lines of the output, in index order from 0. -/
def argLines (argv : List String) : List String := argLinesFrom 0 argv

/-- First character of a line, used to separate the line families. -/
def firstChar (s : String) : Option Char := s.data.head?

lemma argLinesFrom_length (l : List String) : ∀ i, (argLinesFrom i l).length = l.length := by
  induction l with
  | nil => intro i; rfl
  | cons a rest ih => intro i; simp [argLinesFrom, ih]

lemma argLines_length (argv : List String) : (argLines argv).length = argv.length :=
  argLinesFrom_length argv 0

lemma argLinesFrom_getElem? (l : List String) :
    ∀ i j, (argLinesFrom i l)[j]? = (l[j]?).map (fun a => argLine (i + j) a) := by
  induction l with
  | nil => intro i j; simp [argLinesFrom]
  | cons a rest ih =>
    intro i j
    cases j with
    | zero => simp [argLinesFrom]
    | succ j =>
      simp only [argLinesFrom, List.getElem?_cons_succ, ih (i + 1) j]
      have hx : i + 1 + j = i + (j + 1) := by omega
      rw [hx]

lemma argLoop_eq_aux (argv : List String) :
    ∀ k i out, argv.length - i ≤ k →
      argLoop argv i out = out ++ argLinesFrom i (argv.drop i) := by
  intro k
  induction k with
  | zero =>
    intro i out h
    have hge : argv.length ≤ i := by omega
    rw [argLoop]
    simp [Nat.not_lt.mpr hge, List.drop_eq_nil_of_le hge, argLinesFrom]
  | succ k ih =>
    intro i out h
    rw [argLoop]
    by_cases hi : i < argv.length
    · simp only [hi, dif_pos]
      rw [ih (i + 1) _ (by omega)]
      rw [List.drop_eq_getElem_cons hi]
      simp [argLinesFrom, List.get_eq_getElem]
    · simp [hi, List.drop_eq_nil_of_le (Nat.not_lt.mp hi), argLinesFrom]

lemma argLoop_eq (argv : List String) (out : List String) :
    argLoop argv 0 out = out ++ argLines argv := by
  have := argLoop_eq_aux argv argv.length 0 out (by omega)
  simpa [argLines] using this

/-- The optional mode lines appended after the argument listing. -/
def modeLines (cfg : BuildConfig) : List String :=
  (if cfg.debug then [debugLine] else []) ++ (if cfg.ndebug then [releaseLine] else [])

lemma runMain_fst (cfg : BuildConfig) (argv : List String) :
    (runMain cfg argv).1 =
      greeting :: countLine argv.length :: (argLines argv ++ modeLines cfg) := by
  cases cfg with
  | mk d r =>
    cases d <;> cases r <;>
      simp [runMain, argLoop_eq, modeLines, List.append_assoc]

lemma runMain_snd (cfg : BuildConfig) (argv : List String) :
    (runMain cfg argv).2 = 0 := by
  simp [runMain]

lemma data_argOpen : ("  [" : String).data = [' ', ' ', '['] := rfl

lemma data_argCount : ("Arguments: " : String).data = "Arguments: ".data := rfl

lemma firstChar_argLine (i : Nat) (a : String) : firstChar (argLine i a) = some ' ' := by
  simp [firstChar, argLine, String.data_append, data_argOpen]

lemma firstChar_countLine (n : Nat) : firstChar (countLine n) = some 'A' := by
  have : ("Arguments: " : String).data = 'A' :: "rguments: ".data := rfl
  simp [firstChar, countLine, String.data_append, this]

lemma firstChar_mem_argLinesFrom (l : List String) :
    ∀ i s, s ∈ argLinesFrom i l → firstChar s = some ' ' := by
  induction l with
  | nil => intro i s h; simp [argLinesFrom] at h
  | cons a rest ih =>
    intro i s h
    simp only [argLinesFrom, List.mem_cons] at h
    rcases h with h | h
    · rw [h]; exact firstChar_argLine i a
    · exact ih (i + 1) s h

lemma debugLine_ne_greeting : debugLine ≠ greeting := by decide

lemma releaseLine_ne_greeting : releaseLine ≠ greeting := by decide

lemma debugLine_ne_releaseLine : debugLine ≠ releaseLine := by decide

lemma firstChar_debugLine : firstChar debugLine = some 'D' := rfl

lemma firstChar_releaseLine : firstChar releaseLine = some 'R' := rfl

lemma debugLine_ne_countLine (n : Nat) : debugLine ≠ countLine n := by
  intro h
  have := firstChar_countLine n
  rw [← h, firstChar_debugLine] at this
  simp at this

lemma releaseLine_ne_countLine (n : Nat) : releaseLine ≠ countLine n := by
  intro h
  have := firstChar_countLine n
  rw [← h, firstChar_releaseLine] at this
  simp at this

lemma debugLine_not_mem_argLines (argv : List String) : debugLine ∉ argLines argv := by
  intro h
  have := firstChar_mem_argLinesFrom argv 0 debugLine h
  rw [firstChar_debugLine] at this
  simp at this

lemma releaseLine_not_mem_argLines (argv : List String) : releaseLine ∉ argLines argv := by
  intro h
  have := firstChar_mem_argLinesFrom argv 0 releaseLine h
  rw [firstChar_releaseLine] at this
  simp at this

lemma firstChar_greeting : firstChar greeting = some 'H' := rfl

lemma greeting_ne_countLine (n : Nat) : greeting ≠ countLine n := by
  intro h
  have := firstChar_countLine n
  rw [← h, firstChar_greeting] at this
  simp at this

lemma countLine_not_mem_argLines (n : Nat) (argv : List String) :
    countLine n ∉ argLines argv := by
  intro h
  have := firstChar_mem_argLinesFrom argv 0 (countLine n) h
  rw [firstChar_countLine] at this
  simp at this

lemma countLine_not_mem_modeLines (cfg : BuildConfig) (n : Nat) :
    countLine n ∉ modeLines cfg := by
  cases cfg with
  | mk d r =>
    cases d <;> cases r <;>
      simp [modeLines, (debugLine_ne_countLine n).symm, (releaseLine_ne_countLine n).symm]

lemma debug_mem_iff (cfg : BuildConfig) (argv : List String) :
    debugLine ∈ (runMain cfg argv).1 ↔ cfg.debug = true := by
  rw [runMain_fst]
  cases cfg with
  | mk d r =>
    cases d <;> cases r <;>
      simp [modeLines, debugLine_ne_greeting, debugLine_ne_countLine,
        debugLine_not_mem_argLines argv, debugLine_ne_releaseLine]

lemma release_mem_iff (cfg : BuildConfig) (argv : List String) :
    releaseLine ∈ (runMain cfg argv).1 ↔ cfg.ndebug = true := by
  rw [runMain_fst]
  cases cfg with
  | mk d r =>
    cases d <;> cases r <;>
      simp [modeLines, releaseLine_ne_greeting, releaseLine_ne_countLine,
        releaseLine_not_mem_argLines argv, debugLine_ne_releaseLine.symm]

/-- C1: for every invocation, the output is exactly one greeting line, then
one argument-count line, then the per-argument lines in index order, then
the debug line when the debug indicator is defined, then the release line
when the release indicator is defined, and nothing else. -/
theorem output_line_order (cfg : BuildConfig) (argv : List String) :
    (runMain cfg argv).1 =
      [greeting] ++ [countLine argv.length] ++ argLines argv
        ++ (if cfg.debug then [debugLine] else [])
        ++ (if cfg.ndebug then [releaseLine] else []) := by
  rw [runMain_fst]
  simp [modeLines, List.append_assoc]

/-- C2: for every invocation with at least one element, the output contains
exactly `argv.length` argument lines (the block after the first two lines),
in index order, and the line for index `i` shows `i` and the literal text
of element `i`. -/
theorem argument_lines_correct (cfg : BuildConfig) (argv : List String)
    (h : 1 ≤ argv.length) :
    ((runMain cfg argv).1.drop 2).take argv.length = argLines argv ∧
    (argLines argv).length = argv.length ∧
    ∀ i, i < argv.length →
      (argLines argv)[i]? = (argv[i]?).map (fun a => argLine i a) := by
  refine ⟨?_, argLines_length argv, ?_⟩
  · rw [runMain_fst]
    show (argLines argv ++ modeLines cfg).take argv.length = argLines argv
    rw [← argLines_length argv]
    exact List.take_left _ _
  · intro i hi
    simpa using argLinesFrom_getElem? argv 0 i

theorem argument_lines_correct_witness :
    1 ≤ (["prog", "foo", "bar"] : List String).length ∧
    ((((runMain ⟨false, false⟩ ["prog", "foo", "bar"]).1.drop 2).take
        (["prog", "foo", "bar"] : List String).length =
          argLines ["prog", "foo", "bar"]) ∧
      (argLines ["prog", "foo", "bar"]).length =
        (["prog", "foo", "bar"] : List String).length ∧
      ∀ i, i < (["prog", "foo", "bar"] : List String).length →
        (argLines ["prog", "foo", "bar"])[i]? =
          ((["prog", "foo", "bar"] : List String)[i]?).map (fun a => argLine i a)) :=
  ⟨by decide, argument_lines_correct ⟨false, false⟩ ["prog", "foo", "bar"] (by decide)⟩

/-- C3: for every invocation with at least one element, the argument-count
line (the second output line) reports exactly the number of elements of the
invocation, the program name counting as element 0, and no other output
line equals it. -/
theorem count_line_reports_length (cfg : BuildConfig) (argv : List String)
    (h : 1 ≤ argv.length) :
    (runMain cfg argv).1[1]? = some (countLine argv.length) ∧
    (runMain cfg argv).1.count (countLine argv.length) = 1 := by
  constructor
  · rw [runMain_fst]
    simp
  · rw [runMain_fst]
    have h2 : countLine argv.length ∉ argLines argv :=
      countLine_not_mem_argLines argv.length argv
    have h3 : countLine argv.length ∉ modeLines cfg :=
      countLine_not_mem_modeLines cfg argv.length
    simp [List.count_cons, List.count_append, List.count_eq_zero.mpr h2,
      List.count_eq_zero.mpr h3, (greeting_ne_countLine argv.length).symm]

theorem count_line_reports_length_witness :
    1 ≤ (["prog"] : List String).length ∧
    ((runMain ⟨true, false⟩ ["prog"]).1[1]? =
        some (countLine (["prog"] : List String).length) ∧
      (runMain ⟨true, false⟩ ["prog"]).1.count
        (countLine (["prog"] : List String).length) = 1) :=
  ⟨by decide, count_line_reports_length ⟨true, false⟩ ["prog"] (by decide)⟩

/-- C4: the extra mode lines are gated exactly by the two indicators: the
debug line is in the output iff `cfg.debug`, the release line iff
`cfg.ndebug`; with both false, neither appears. -/
theorem mode_lines_gating (cfg : BuildConfig) (argv : List String) :
    (debugLine ∈ (runMain cfg argv).1 ↔ cfg.debug = true) ∧
    (releaseLine ∈ (runMain cfg argv).1 ↔ cfg.ndebug = true) :=
  ⟨debug_mem_iff cfg argv, release_mem_iff cfg argv⟩

/-- C5: for every build configuration and invocation, the program returns
the success status 0 (and, being a total function, terminates). -/
theorem always_returns_success (cfg : BuildConfig) (argv : List String) :
    (runMain cfg argv).2 = 0 :=
  runMain_snd cfg argv

/-- C6: for the invocation `["prog"]`, the output is exactly the greeting
line, then `"Arguments: 1"`, then `"  [0]: prog"`, then only the mode lines
dictated by the build configuration. -/
theorem single_arg_invocation_output (cfg : BuildConfig) :
    (runMain cfg ["prog"]).1 =
      [greeting, "Arguments: 1", "  [0]: prog"] ++ modeLines cfg := by
  have h1 : countLine 1 = "Arguments: 1" := by decide
  have h2 : argLines ["prog"] = ["  [0]: prog"] := by decide
  rw [runMain_fst]
  simp [h1, h2]

/-- C7: when both indicators are defined, every invocation's output
contains both the debug line and the release line. -/
theorem both_indicators_both_lines (argv : List String) :
    debugLine ∈ (runMain ⟨true, true⟩ argv).1 ∧
    releaseLine ∈ (runMain ⟨true, true⟩ argv).1 :=
  ⟨(debug_mem_iff ⟨true, true⟩ argv).mpr rfl,
   (release_mem_iff ⟨true, true⟩ argv).mpr rfl⟩

/-- C8: the output and exit status are a function of the invocation and the
two indicators only: two runs with equal configurations and equal
invocations produce identical line sequences and identical exit values. -/
theorem output_deterministic (cfg1 cfg2 : BuildConfig) (argv1 argv2 : List String)
    (hc : cfg1 = cfg2) (ha : argv1 = argv2) :
    (runMain cfg1 argv1).1 = (runMain cfg2 argv2).1 ∧
    (runMain cfg1 argv1).2 = (runMain cfg2 argv2).2 := by
  subst hc
  subst ha
  exact ⟨rfl, rfl⟩

theorem output_deterministic_witness :
    (runMain ⟨true, false⟩ ["prog"]).1 = (runMain ⟨true, false⟩ ["prog"]).1 ∧
    (runMain ⟨true, false⟩ ["prog"]).2 = (runMain ⟨true, false⟩ ["prog"]).2 :=
  output_deterministic ⟨true, false⟩ ⟨true, false⟩ ["prog"] ["prog"] rfl rfl

/-- C9: for the empty invocation the program still terminates successfully:
the output is the greeting line, the count line reporting 0, no argument
lines, then the mode lines; the argument loop writes nothing. -/
theorem empty_invocation_behavior (cfg : BuildConfig) :
    (runMain cfg []).1 = greeting :: countLine 0 :: modeLines cfg ∧
    countLine 0 = "Arguments: 0" ∧
    argLines ([] : List String) = [] ∧
    (∀ out, argLoop [] 0 out = out) ∧
    (runMain cfg []).2 = 0 := by
  refine ⟨?_, by decide, rfl, ?_, runMain_snd cfg []⟩
  · rw [runMain_fst]
    simp [argLines, argLinesFrom]
  · intro out
    rw [argLoop]
    simp

/-- C10: with both indicators defined, the output ends with the debug line
immediately followed by the release line, and neither of the two lines
occurs anywhere earlier, so the release line never precedes the debug
line. -/
theorem debug_immediately_before_release (argv : List String) :
    ∃ front, (runMain ⟨true, true⟩ argv).1 = front ++ [debugLine, releaseLine] ∧
      debugLine ∉ front ∧ releaseLine ∉ front := by
  refine ⟨greeting :: countLine argv.length :: argLines argv, ?_, ?_, ?_⟩
  · rw [runMain_fst]
    simp [modeLines]
  · simp [debugLine_ne_greeting, debugLine_ne_countLine argv.length,
      debugLine_not_mem_argLines argv]
  · simp [releaseLine_ne_greeting, releaseLine_ne_countLine argv.length,
      releaseLine_not_mem_argLines argv]
